import Mathlib

/-!
Shallow embedding of `secscan.py` (chinmaymjog/gitscan): a CLI utility that
checks the working directory is a git repository root, probes for the
`gitleaks` and `pre-commit` executables, and writes/updates a
`.pre-commit-config.yaml` file before running `pre-commit install`.

External effects (subprocess results, the search path, the clock, the
filesystem) are modelled as explicit environment/state values; the Python
functions become pure Lean functions over them.
-/

namespace Secscan

/-! ## Python string primitives used by the script -/

/-- Whitespace characters recognised by Python `str.strip()` / `str.split()`
(space, tab, newline, carriage return, vertical tab, form feed). -/
def pySpace (c : Char) : Bool :=
  c = ' ' || c = '\t' || c = '\n' || c = '\r' || c = Char.ofNat 11 || c = Char.ofNat 12

/-- Python `str.strip()`: remove leading and trailing whitespace. -/
def pyStrip (s : String) : String :=
  String.mk (((s.data.dropWhile pySpace).reverse.dropWhile pySpace).reverse)

/-- Split a character list at every character satisfying `p`, keeping empty
pieces (the character-level semantics shared by Python `str.split(sep)` for
a one-character separator). -/
def splitChars (p : Char → Bool) : List Char → List (List Char)
  | [] => [[]]
  | c :: cs =>
    if p c then [] :: splitChars p cs
    else
      match splitChars p cs with
      | [] => [[c]]
      | t :: ts => (c :: t) :: ts

/-- Python `str.split()` with no separator: maximal runs of non-whitespace,
empty pieces discarded. -/
def pyTokens (s : String) : List String :=
  ((splitChars pySpace s.data).filter (fun t => !(t = []))).map String.mk

/-- Python `str.split(" ")`: split at each space character, keeping empty
pieces. -/
def pySplitSpace (s : String) : List String :=
  (splitChars (fun c => c = ' ') s.data).map String.mk

/-- Python `str.removeprefix("v")`: drop a single leading `v` if present. -/
def stripV (s : String) : String :=
  match s.data with
  | c :: cs => if c = 'v' then String.mk cs else s
  | [] => s

/-- Boolean contiguous-sublist test on character lists. -/
def isSubChars (pat : List Char) : List Char → Bool
  | [] => pat.isPrefixOf []
  | c :: rest => pat.isPrefixOf (c :: rest) || isSubChars pat rest

/-- the Python `in` operator on strings: substring containment test. -/
def strContainsB (s pat : String) : Bool :=
  isSubChars pat.data s.data

/-! ## Tool probe (`check_commands`) -/

/-- Result record for one external tool, mirroring the Python dict
with a boolean status field and a version string field. -/
structure ToolStatus where
  status : Bool
  version : String
deriving DecidableEq, Repr

/-- The mapping returned by `check_commands`, one `ToolStatus` per tool. -/
structure CmdStatus where
  gitleaks : ToolStatus
  preCommit : ToolStatus
deriving DecidableEq, Repr

/-- Environment for the tool probe: whether each executable is on the search
path (`shutil.which`), and the stdout of its version command when the
invocation exits 0 (`none` models a `CalledProcessError`). -/
structure ProbeEnv where
  gitleaksOnPath : Bool
  gitleaksVersionRun : Option String
  preCommitOnPath : Bool
  preCommitVersionRun : Option String
deriving DecidableEq, Repr

/-- Observable probe steps performed by `check_commands`, in order. -/
inductive ProbeEvent where
  | whichGitleaks
  | runGitleaksVersion
  | whichPreCommit
  | runPreCommitVersion
deriving DecidableEq, Repr

/-- Embedding of `check_commands` (secscan.py lines 35-79). Returns the result
dict (`none` models an uncaught `IndexError` while parsing version output)
together with the trace of probe steps actually performed.

Control flow mirrors the source: if `gitleaks` is not on the path, return
both tools as not-installed immediately; otherwise run `gitleaks version`
(a `CalledProcessError` is caught, leaving status `false`, version `""`;
the first whitespace token of stdout gets a leading `v` stripped). Then the
same early return if `pre-commit` is missing; otherwise `pre-commit
--version` is run and token index 1 of the output split on single spaces is
taken, with no prefix stripping. -/
def check_commands (env : ProbeEnv) : Option CmdStatus × List ProbeEvent :=
  if !env.gitleaksOnPath then
    (some ⟨⟨false, ""⟩, ⟨false, ""⟩⟩, [ProbeEvent.whichGitleaks])
  else
    let gres : Option (Bool × String) :=
      match env.gitleaksVersionRun with
      | none => some (false, "")
      | some out =>
        match pyTokens (pyStrip out) with
        | [] => none
        | t :: _ => some (true, stripV t)
    match gres with
    | none => (none, [ProbeEvent.whichGitleaks, ProbeEvent.runGitleaksVersion])
    | some g =>
      if !env.preCommitOnPath then
        (some ⟨⟨false, ""⟩, ⟨false, ""⟩⟩,
         [ProbeEvent.whichGitleaks, ProbeEvent.runGitleaksVersion, ProbeEvent.whichPreCommit])
      else
        match env.preCommitVersionRun with
        | none =>
          (some ⟨⟨g.1, g.2⟩, ⟨false, ""⟩⟩,
           [ProbeEvent.whichGitleaks, ProbeEvent.runGitleaksVersion,
            ProbeEvent.whichPreCommit, ProbeEvent.runPreCommitVersion])
        | some out =>
          match (pySplitSpace (pyStrip out))[1]? with
          | none =>
            (none,
             [ProbeEvent.whichGitleaks, ProbeEvent.runGitleaksVersion,
              ProbeEvent.whichPreCommit, ProbeEvent.runPreCommitVersion])
          | some v =>
            (some ⟨⟨g.1, g.2⟩, ⟨true, v⟩⟩,
             [ProbeEvent.whichGitleaks, ProbeEvent.runGitleaksVersion,
              ProbeEvent.whichPreCommit, ProbeEvent.runPreCommitVersion])

/-! ## Environment check (`check_in_repo`) -/

/-- Environment for `check_in_repo`: the current working directory, the stdout
of `git rev-parse --show-toplevel` (`none` models a `CalledProcessError`,
i.e. not inside a repository), and the path canonicalisation performed by
`Path.resolve()`. -/
structure RepoEnv where
  cwd : String
  revParseToplevel : Option String
  resolve : String → String

/-- Embedding of `check_in_repo` (secscan.py lines 24-32): `false` if the git
query fails, otherwise compare the resolved working directory with the
resolved (stripped) query output. -/
def check_in_repo (env : RepoEnv) : Bool :=
  match env.revParseToplevel with
  | none => false
  | some out => decide (env.resolve env.cwd = env.resolve (pyStrip out))

/-! ## Filesystem model

The files of the working directory, as an association list from file name
(relative to the repository root) to byte content. -/

/-- Filesystem state: file name to content. -/
abbrev FS := List (String × String)

/-- Content of a file, `none` if absent (`Path.exists` / `read_text`). -/
def fsLookup (fs : FS) (name : String) : Option String :=
  match fs with
  | [] => none
  | e :: rest => if e.1 = name then some e.2 else fsLookup rest name

/-- Remove any entry for `name`. -/
def fsErase (fs : FS) (name : String) : FS :=
  match fs with
  | [] => []
  | e :: rest => if e.1 = name then fsErase rest name else e :: fsErase rest name

/-- Write (create or overwrite) a file (`Path.write_text`). -/
def fsWrite (fs : FS) (name content : String) : FS :=
  (name, content) :: fsErase fs name

/-- Rename a file (`shutil.move`); no-op when the source is absent (in the
script the source is known to exist whenever this is called). -/
def fsMove (fs : FS) (src dst : String) : FS :=
  match fsLookup fs src with
  | none => fs
  | some c => fsWrite (fsErase fs src) dst c

/-! ## Timestamps -/

/-- A wall-clock reading, as broken-down fields. -/
structure Timestamp where
  year : Nat
  month : Nat
  day : Nat
  hour : Nat
  minute : Nat
  second : Nat
deriving DecidableEq, Repr

/-- Zero-pad to two digits. -/
def pad2 (n : Nat) : String :=
  if n < 10 then "0" ++ toString n else toString n

/-- Zero-pad to four digits. -/
def pad4 (n : Nat) : String :=
  if n < 10 then "000" ++ toString n
  else if n < 100 then "00" ++ toString n
  else if n < 1000 then "0" ++ toString n
  else toString n

/-- Embedding of `strftime("%Y%m%dT%H%M%SZ")` applied to a timestamp. -/
def strftimeCompact (t : Timestamp) : String :=
  pad4 t.year ++ pad2 t.month ++ pad2 t.day ++ "T" ++
    pad2 t.hour ++ pad2 t.minute ++ pad2 t.second ++ "Z"

/-! ## Configuration writer (`config_secscan`) -/

/-- Clock and install-command environment for `config_secscan`: the local
wall-clock reading returned by `datetime.now()`, the corresponding true
UTC reading of the same instant, and whether `pre-commit install`
exits 0. -/
structure ClockEnv where
  nowLocal : Timestamp
  nowUtc : Timestamp
  installOk : Bool
deriving DecidableEq, Repr

/-- External actions performed by the script, in order. -/
inductive Action where
  | printOut (s : String)
  | moveFile (src dst : String)
  | writeFile (name content : String)
  | runInstall
deriving DecidableEq, Repr

/-- Whether an action is a plain print (descriptive output only). -/
def Action.isPrint : Action → Bool
  | .printOut _ => true
  | _ => false

/-- Whether an action mutates the filesystem. -/
def Action.mutates : Action → Bool
  | .moveFile _ _ => true
  | .writeFile _ _ => true
  | _ => false

/-- The actions that come after the first install invocation of a trace
(empty if the trace has no install invocation). -/
def afterFirstInstall : List Action → List Action
  | [] => []
  | Action.runInstall :: rest => rest
  | _ :: rest => afterFirstInstall rest

/-- Name of the configuration file written at the repository root. -/
def configFileName : String := ".pre-commit-config.yaml"

/-- The substring whose presence marks the file as already configured. -/
def gitleaksMarker : String := "id: gitleaks"

/-- The fresh configuration content template (secscan.py lines 83-89),
with the detected gitleaks version interpolated after `rev: v`. -/
def pre_commit_config (gitleaksVersion : String) : String :=
  "repos:\n  - repo: https://github.com/gitleaks/gitleaks\n    rev: v" ++
    gitleaksVersion ++ "\n    hooks:\n      - id: gitleaks\n"

/-- Backup file name built from a timestamp (secscan.py lines 91-92); the
script formats `datetime.now()`, i.e. the local clock. -/
def backupFileName (ts : Timestamp) : String :=
  configFileName ++ "-" ++ strftimeCompact ts

/-- Embedding of `config_secscan` (secscan.py lines 82-133). Parameters:
the detected gitleaks version, the module-global `pre_commit_version`
(read only in the final success message), the `dry_run` flag, the clock /
install environment, and the filesystem. Returns the final filesystem, the
ordered action trace, and `true` iff the call returns normally (`false`
models the uncaught `CalledProcessError` when `pre-commit install` exits
non-zero under `check=True`, which aborts before any later statement). -/
def config_secscan (gitleaksVersion preCommitVersion : String) (dryRun : Bool)
    (env : ClockEnv) (fs : FS) : FS × List Action × Bool :=
  let content := pre_commit_config gitleaksVersion
  let backup := backupFileName env.nowLocal
  if dryRun then
    match fsLookup fs configFileName with
    | some c =>
      if strContainsB c gitleaksMarker then
        (fs, [Action.printOut "[dry-run] gitleaks already configured.",
              Action.printOut "[dry-run] Would run: pre-commit install",
              Action.printOut "[dry-run] Would run: pre-commit install"], true)
      else
        (fs, [Action.printOut ("[dry-run] Would move existing " ++ configFileName ++ " -> " ++ backup),
              Action.printOut ("[dry-run] Would write new " ++ configFileName ++ " with content:\n" ++ content),
              Action.printOut "[dry-run] Would run: pre-commit install"], true)
    | none =>
      (fs, [Action.printOut ("[dry-run] Would write new " ++ configFileName ++ " with content:\n" ++ content),
            Action.printOut "[dry-run] Would run: pre-commit install"], true)
  else
    match fsLookup fs configFileName with
    | some c =>
      if strContainsB c gitleaksMarker then
        if env.installOk then
          (fs, [Action.printOut ("Repository already configured with gitleaks rev " ++
                  gitleaksVersion ++ "; only installing hooks."),
                Action.runInstall,
                Action.printOut "pre-commit hooks installed"], true)
        else
          (fs, [Action.printOut ("Repository already configured with gitleaks rev " ++
                  gitleaksVersion ++ "; only installing hooks."),
                Action.runInstall], false)
      else
        let fs1 := fsMove fs configFileName backup
        let fs2 := fsWrite fs1 configFileName content
        if env.installOk then
          (fs2, [Action.moveFile configFileName backup,
                 Action.printOut ("Existing config moved to " ++ backup),
                 Action.writeFile configFileName content,
                 Action.printOut ("Wrote " ++ configFileName),
                 Action.runInstall,
                 Action.printOut ("\n✅ Setup complete!\n\n- Gitleaks version: " ++
                   gitleaksVersion ++ "\n- pre-commit version: " ++ preCommitVersion ++
                   "\n- Config file: .pre-commit-config.yaml\n\nCommits in this repo will now be scanned for secrets automatically.\n")], true)
        else
          (fs2, [Action.moveFile configFileName backup,
                 Action.printOut ("Existing config moved to " ++ backup),
                 Action.writeFile configFileName content,
                 Action.printOut ("Wrote " ++ configFileName),
                 Action.runInstall], false)
    | none =>
      let fs2 := fsWrite fs configFileName content
      if env.installOk then
        (fs2, [Action.writeFile configFileName content,
               Action.printOut ("Wrote " ++ configFileName),
               Action.runInstall,
               Action.printOut ("\n✅ Setup complete!\n\n- Gitleaks version: " ++
                 gitleaksVersion ++ "\n- pre-commit version: " ++ preCommitVersion ++
                 "\n- Config file: .pre-commit-config.yaml\n\nCommits in this repo will now be scanned for secrets automatically.\n")], true)
      else
        (fs2, [Action.writeFile configFileName content,
               Action.printOut ("Wrote " ++ configFileName),
               Action.runInstall], false)

/-! ## Entry point (`__main__` block, secscan.py lines 136-161) -/

/-- Full environment for one program run. -/
structure ProgramEnv where
  repo : RepoEnv
  probe : ProbeEnv
  clock : ClockEnv

/-- How the process ends: a deliberate `sys.exit(code)`, or an uncaught
exception (traceback; the interpreter then exits non-zero). -/
inductive Outcome where
  | exited (code : Nat)
  | crashed
deriving DecidableEq, Repr

/-- Embedding of the `__main__` block. `dryRun` encodes the mutually
exclusive required flags: `true` for `--dry-run`, `false` for `--setup`. -/
def mainRun (env : ProgramEnv) (dryRun : Bool) (fs : FS) : Outcome × FS × List Action :=
  if !check_in_repo env.repo then
    (Outcome.exited 1, fs,
     [Action.printOut "❌ Not at a Git repository top-level. Run this script from the repository root."])
  else
    match (check_commands env.probe).1 with
    | none => (Outcome.crashed, fs, [])
    | some cs =>
      if !(cs.gitleaks.status && cs.preCommit.status) then
        (Outcome.exited 1, fs,
         [Action.printOut "⚠️ Missing required tools or versions could not be determined.\n",
          Action.printOut "➡️ Install gitleaks via: brew install gitleaks\n    More info: https://github.com/gitleaks/gitleaks",
          Action.printOut "➡️ Install pre-commit via: brew install pre-commit\n    More info: https://pre-commit.com/"])
      else if dryRun then
        let r := config_secscan cs.gitleaks.version cs.preCommit.version true env.clock fs
        (Outcome.exited 0, r.1, r.2.1)
      else
        let r := config_secscan cs.gitleaks.version cs.preCommit.version false env.clock fs
        (if r.2.2 then Outcome.exited 0 else Outcome.crashed, r.1, r.2.1)

/-! ## Helper lemmas -/

theorem fsLookup_fsErase_other (fs : FS) (n m : String) (h : m ≠ n) :
    fsLookup (fsErase fs n) m = fsLookup fs m := by
  have hnm : ¬(n = m) := fun hx => h hx.symm
  induction fs with
  | nil => rfl
  | cons e rest ih =>
    by_cases he : e.1 = n
    · simp [fsErase, fsLookup, he, hnm, ih]
    · simp [fsErase, fsLookup, he, ih]

theorem fsLookup_fsWrite_self (fs : FS) (n c : String) :
    fsLookup (fsWrite fs n c) n = some c := by
  simp [fsWrite, fsLookup]

theorem fsLookup_fsWrite_other (fs : FS) (n c m : String) (h : m ≠ n) :
    fsLookup (fsWrite fs n c) m = fsLookup fs m := by
  have hnm : n ≠ m := fun hx => h hx.symm
  simp [fsWrite, fsLookup, hnm, fsLookup_fsErase_other fs n m h]

theorem isSubChars_iff (pat l : List Char) :
    isSubChars pat l = true ↔ pat <:+: l := by
  induction l with
  | nil => simp [isSubChars]
  | cons c rest ih => simp [isSubChars, ih, List.infix_cons_iff]

theorem strContainsB_iff (s pat : String) :
    strContainsB s pat = true ↔ pat.data <:+: s.data := by
  simp [strContainsB, isSubChars_iff]

theorem strContainsB_of_parts (a pat b s : String) (h : s = a ++ pat ++ b) :
    strContainsB s pat = true := by
  rw [strContainsB_iff, h]
  simp only [String.data_append]
  exact List.infix_append _ _ _

theorem pre_commit_config_eq_parts (v : String) :
    pre_commit_config v =
      ("repos:\n  - repo: https://github.com/gitleaks/gitleaks\n    rev: v" ++ v ++
        "\n    hooks:\n      - ") ++ "id: gitleaks" ++ "\n" := by
  have hlit : ("\n    hooks:\n      - id: gitleaks\n" : String) =
      "\n    hooks:\n      - " ++ "id: gitleaks" ++ "\n" := by decide
  rw [pre_commit_config]
  conv_lhs => rw [hlit]
  simp only [String.append_assoc]

theorem pre_commit_config_contains_marker (v : String) :
    strContainsB (pre_commit_config v) gitleaksMarker = true :=
  strContainsB_of_parts _ _ _ _ (pre_commit_config_eq_parts v)

theorem pre_commit_config_eq_parts_rev (v : String) :
    pre_commit_config v =
      "repos:\n  - repo: https://github.com/gitleaks/gitleaks\n    " ++ ("rev: v" ++ v) ++
        "\n    hooks:\n      - id: gitleaks\n" := by
  have hlit : ("repos:\n  - repo: https://github.com/gitleaks/gitleaks\n    rev: v" : String) =
      "repos:\n  - repo: https://github.com/gitleaks/gitleaks\n    " ++ "rev: v" := by decide
  rw [pre_commit_config]
  conv_lhs => rw [hlit]
  simp only [String.append_assoc]

theorem pre_commit_config_contains_rev (v : String) :
    strContainsB (pre_commit_config v) ("rev: v" ++ v) = true :=
  strContainsB_of_parts _ _ _ _ (pre_commit_config_eq_parts_rev v)

theorem backupFileName_ne_config (ts : Timestamp) :
    backupFileName ts ≠ configFileName := by
  intro h
  have hlen := congrArg String.length h
  have l1 : ("-" : String).length = 1 := rfl
  have l2 : ("Z" : String).length = 1 := rfl
  have l3 : ("T" : String).length = 1 := rfl
  simp only [backupFileName, strftimeCompact, String.length_append, l1, l2, l3] at hlen
  omega

theorem config_secscan_returns_true (gv pcv : String) (d : Bool) (env : ClockEnv) (fs : FS)
    (h : d = true ∨ env.installOk = true) :
    (config_secscan gv pcv d env fs).2.2 = true := by
  rcases h with h | h
  · subst h
    cases hc : fsLookup fs configFileName with
    | none => simp [config_secscan, hc]
    | some c =>
      cases hm : strContainsB c gitleaksMarker with
      | false => simp [config_secscan, hc, hm]
      | true => simp [config_secscan, hc, hm]
  · cases d with
    | true =>
      cases hc : fsLookup fs configFileName with
      | none => simp [config_secscan, hc]
      | some c =>
        cases hm : strContainsB c gitleaksMarker with
        | false => simp [config_secscan, hc, hm]
        | true => simp [config_secscan, hc, hm]
    | false =>
      cases hc : fsLookup fs configFileName with
      | none => simp [config_secscan, hc, h]
      | some c =>
        cases hm : strContainsB c gitleaksMarker with
        | false => simp [config_secscan, hc, hm, h]
        | true => simp [config_secscan, hc, hm, h]

/-- Version string as claim C3 words it, for either tool: the first
whitespace-separated token of the version-command output, with any leading
version-prefix character `v` stripped. Stated from the spec sentence, for
comparison with the parsing done by the code. -/
def specFirstTokenVersion (out : String) : String :=
  stripV ((pyTokens (pyStrip out)).headD "")

/-! ## Claim theorems -/

/-- C1: In simulation mode, for every configuration-file state (absent,
present with the scanner-hook marker, present without it), `config_secscan`
leaves the filesystem byte-for-byte unchanged, produces only descriptive
print output (no file write, no rename, no install invocation), and
returns normally. -/
theorem dry_run_no_side_effects (gv pcv : String) (env : ClockEnv) (fs : FS) :
    (config_secscan gv pcv true env fs).1 = fs ∧
    (∀ a ∈ (config_secscan gv pcv true env fs).2.1, a.isPrint = true) ∧
    (config_secscan gv pcv true env fs).2.2 = true := by
  cases hc : fsLookup fs configFileName with
  | none => simp [config_secscan, hc, Action.isPrint]
  | some c =>
    cases hm : strContainsB c gitleaksMarker with
    | false => simp [config_secscan, hc, hm, Action.isPrint]
    | true => simp [config_secscan, hc, hm, Action.isPrint]

/-- C2: `check_in_repo` returns true iff the `git rev-parse --show-toplevel`
query succeeds and the resolved working directory equals the resolved
(stripped) query result; it returns false when the query fails, and false
whenever the two resolved paths differ (in particular from a proper
subdirectory of a repository, whose canonical path differs from that
of the top-level). -/
theorem check_in_repo_iff_toplevel (env : RepoEnv) :
    (check_in_repo env = true ↔
      ∃ s, env.revParseToplevel = some s ∧
        env.resolve env.cwd = env.resolve (pyStrip s)) ∧
    (env.revParseToplevel = none → check_in_repo env = false) ∧
    (∀ s, env.revParseToplevel = some s →
      env.resolve env.cwd ≠ env.resolve (pyStrip s) → check_in_repo env = false) := by
  refine ⟨?_, ?_, ?_⟩
  · cases h : env.revParseToplevel with
    | none => simp [check_in_repo, h]
    | some s => simp [check_in_repo, h]
  · intro h
    simp [check_in_repo, h]
  · intro s hs hne
    simp [check_in_repo, hs, hne]

/-- Witness for C2: with canonical paths taken verbatim, running from the
subdirectory `/repo/sub` of the repository whose top-level is `/repo`
makes `check_in_repo` return false. -/
theorem check_in_repo_iff_toplevel_witness :
    check_in_repo ⟨"/repo/sub", some "/repo\n", fun s => s⟩ = false :=
  (check_in_repo_iff_toplevel ⟨"/repo/sub", some "/repo\n", fun s => s⟩).2.2
    "/repo\n" rfl (by decide)

/-- C3 counterexample: with gitleaks printing `v8.18.0` and pre-commit
printing `pre-commit 3.7.1`, the code reports the pre-commit version as
`3.7.1` (token index 1 of the output split on spaces), not the
first-token-with-v-stripped value `pre-commit` that the claim prescribes
for both tools. -/
theorem version_first_token_claim_false :
    (check_commands ⟨true, some "v8.18.0\n", true, some "pre-commit 3.7.1\n"⟩).1 =
      some ⟨⟨true, "8.18.0"⟩, ⟨true, "3.7.1"⟩⟩ ∧
    specFirstTokenVersion "pre-commit 3.7.1\n" = "pre-commit" ∧
    ("3.7.1" : String) ≠ "pre-commit" :=
  ⟨by decide, by decide, by decide⟩

/-- C3 amended: when both executables are present and both version commands
succeed, the version of the first tool is the first whitespace-separated token
of its output with a leading `v` stripped (as the claim says), but the
version of the second tool is token index 1 of its output split on single
spaces, with no prefix stripping. -/
theorem version_parsing_per_tool (env : ProbeEnv) (out1 out2 t u : String) (ts : List String)
    (h1 : env.gitleaksOnPath = true)
    (h2 : env.gitleaksVersionRun = some out1)
    (h3 : pyTokens (pyStrip out1) = t :: ts)
    (h4 : env.preCommitOnPath = true)
    (h5 : env.preCommitVersionRun = some out2)
    (h6 : (pySplitSpace (pyStrip out2))[1]? = some u) :
    (check_commands env).1 = some ⟨⟨true, stripV t⟩, ⟨true, u⟩⟩ ∧
    specFirstTokenVersion out1 = stripV t := by
  constructor
  · simp [check_commands, h1, h2, h3, h4, h5, h6]
  · simp [specFirstTokenVersion, h3]

/-- Witness for the amended C3 at concrete version outputs. -/
theorem version_parsing_per_tool_witness :
    (check_commands ⟨true, some "v8.18.0\n", true, some "pre-commit 3.7.1\n"⟩).1 =
      some ⟨⟨true, stripV "v8.18.0"⟩, ⟨true, "3.7.1"⟩⟩ :=
  (version_parsing_per_tool ⟨true, some "v8.18.0\n", true, some "pre-commit 3.7.1\n"⟩
    "v8.18.0\n" "pre-commit 3.7.1\n" "v8.18.0" "3.7.1" []
    rfl rfl (by decide) rfl rfl (by decide)).1

/-- C4: In real mode, when the configuration file exists and already contains
the scanner-hook marker, `config_secscan` performs zero file mutations
(every action is a print or the install invocation, which does occur), the
filesystem is unchanged, and a second run on the resulting state leaves the
file content identical. -/
theorem already_configured_idempotent (gv pcv : String) (env : ClockEnv) (fs : FS) (c : String)
    (h1 : fsLookup fs configFileName = some c)
    (h2 : strContainsB c gitleaksMarker = true) :
    (config_secscan gv pcv false env fs).1 = fs ∧
    (∀ a ∈ (config_secscan gv pcv false env fs).2.1,
      a.isPrint = true ∨ a = Action.runInstall) ∧
    Action.runInstall ∈ (config_secscan gv pcv false env fs).2.1 ∧
    (config_secscan gv pcv false env (config_secscan gv pcv false env fs).1).1 = fs := by
  cases hio : env.installOk with
  | true => simp [config_secscan, h1, h2, hio, Action.isPrint]
  | false => simp [config_secscan, h1, h2, hio, Action.isPrint]

/-- Witness for C4 at a concrete marker-bearing configuration file. -/
theorem already_configured_idempotent_witness :
    (config_secscan "8.18.0" "3.7.1" false ⟨⟨2025, 1, 1, 0, 0, 0⟩, ⟨2025, 1, 1, 0, 0, 0⟩, true⟩
        [(configFileName, "hook id: gitleaks here")]).1 =
      [(configFileName, "hook id: gitleaks here")] :=
  (already_configured_idempotent "8.18.0" "3.7.1"
      ⟨⟨2025, 1, 1, 0, 0, 0⟩, ⟨2025, 1, 1, 0, 0, 0⟩, true⟩
      [(configFileName, "hook id: gitleaks here")] "hook id: gitleaks here"
      (by decide) (by decide)).1

/-- C5: In real mode, when the configuration file exists without the
scanner-hook marker, `config_secscan` first renames it to the backup path
(so the original content is recoverable verbatim there) and then writes a
fresh configuration file whose content contains the hook declaration
`id: gitleaks` and the pin `rev: v` followed by exactly the detected
version string; the trace starts move-then-write in that order. -/
theorem backup_then_fresh_write (gv pcv : String) (env : ClockEnv) (fs : FS) (c : String)
    (h1 : fsLookup fs configFileName = some c)
    (h2 : strContainsB c gitleaksMarker = false) :
    fsLookup (config_secscan gv pcv false env fs).1 (backupFileName env.nowLocal) = some c ∧
    fsLookup (config_secscan gv pcv false env fs).1 configFileName =
      some (pre_commit_config gv) ∧
    strContainsB (pre_commit_config gv) gitleaksMarker = true ∧
    strContainsB (pre_commit_config gv) ("rev: v" ++ gv) = true ∧
    ∃ rest, (config_secscan gv pcv false env fs).2.1 =
      Action.moveFile configFileName (backupFileName env.nowLocal) ::
      Action.printOut ("Existing config moved to " ++ backupFileName env.nowLocal) ::
      Action.writeFile configFileName (pre_commit_config gv) :: rest := by
  have hb := backupFileName_ne_config env.nowLocal
  have hmv : fsMove fs configFileName (backupFileName env.nowLocal) =
      fsWrite (fsErase fs configFileName) (backupFileName env.nowLocal) c := by
    simp [fsMove, h1]
  have key1 : fsLookup
      (fsWrite (fsMove fs configFileName (backupFileName env.nowLocal))
        configFileName (pre_commit_config gv)) (backupFileName env.nowLocal) = some c := by
    rw [fsLookup_fsWrite_other _ _ _ _ hb, hmv, fsLookup_fsWrite_self]
  have key2 : fsLookup
      (fsWrite (fsMove fs configFileName (backupFileName env.nowLocal))
        configFileName (pre_commit_config gv)) configFileName =
      some (pre_commit_config gv) := fsLookup_fsWrite_self _ _ _
  cases hio : env.installOk with
  | true =>
    have hr : config_secscan gv pcv false env fs =
        (fsWrite (fsMove fs configFileName (backupFileName env.nowLocal))
          configFileName (pre_commit_config gv),
         [Action.moveFile configFileName (backupFileName env.nowLocal),
          Action.printOut ("Existing config moved to " ++ backupFileName env.nowLocal),
          Action.writeFile configFileName (pre_commit_config gv),
          Action.printOut ("Wrote " ++ configFileName),
          Action.runInstall,
          Action.printOut ("\n✅ Setup complete!\n\n- Gitleaks version: " ++
            gv ++ "\n- pre-commit version: " ++ pcv ++
            "\n- Config file: .pre-commit-config.yaml\n\nCommits in this repo will now be scanned for secrets automatically.\n")],
         true) := by
      simp [config_secscan, h1, h2, hio]
    rw [hr]
    exact ⟨key1, key2, pre_commit_config_contains_marker gv,
      pre_commit_config_contains_rev gv, ⟨_, rfl⟩⟩
  | false =>
    have hr : config_secscan gv pcv false env fs =
        (fsWrite (fsMove fs configFileName (backupFileName env.nowLocal))
          configFileName (pre_commit_config gv),
         [Action.moveFile configFileName (backupFileName env.nowLocal),
          Action.printOut ("Existing config moved to " ++ backupFileName env.nowLocal),
          Action.writeFile configFileName (pre_commit_config gv),
          Action.printOut ("Wrote " ++ configFileName),
          Action.runInstall],
         false) := by
      simp [config_secscan, h1, h2, hio]
    rw [hr]
    exact ⟨key1, key2, pre_commit_config_contains_marker gv,
      pre_commit_config_contains_rev gv, ⟨_, rfl⟩⟩

/-- Witness for C5: a concrete hook-less configuration file is backed up
verbatim and replaced. -/
theorem backup_then_fresh_write_witness :
    fsLookup
      (config_secscan "8.18.0" "3.7.1" false
        ⟨⟨2025, 1, 1, 12, 0, 0⟩, ⟨2025, 1, 1, 7, 0, 0⟩, true⟩
        [(configFileName, "repos: []")]).1
      (backupFileName ⟨2025, 1, 1, 12, 0, 0⟩) = some "repos: []" :=
  (backup_then_fresh_write "8.18.0" "3.7.1"
      ⟨⟨2025, 1, 1, 12, 0, 0⟩, ⟨2025, 1, 1, 7, 0, 0⟩, true⟩
      [(configFileName, "repos: []")] "repos: []" (by decide) (by decide)).1

/-- C6: the backup path follows the `<original-name>-<timestamp>` convention
with the `YYYYMMDDThhmmssZ` shape, but the timestamp formatted is the
local-clock reading (`datetime.now()`), not the UTC reading the claim and
the `Z` suffix prescribe: at an instant where local time 12:00:00 differs
from UTC 07:00:00, the backup lands at the local-time-named path and
nothing exists at the UTC-named path. -/
theorem backup_name_uses_local_clock :
    fsLookup
      (config_secscan "8.18.0" "3.7.1" false
        ⟨⟨2025, 1, 1, 12, 0, 0⟩, ⟨2025, 1, 1, 7, 0, 0⟩, true⟩
        [(configFileName, "repos: []")]).1
      ".pre-commit-config.yaml-20250101T120000Z" = some "repos: []" ∧
    fsLookup
      (config_secscan "8.18.0" "3.7.1" false
        ⟨⟨2025, 1, 1, 12, 0, 0⟩, ⟨2025, 1, 1, 7, 0, 0⟩, true⟩
        [(configFileName, "repos: []")]).1
      (configFileName ++ "-" ++ strftimeCompact ⟨2025, 1, 1, 7, 0, 0⟩) = none ∧
    backupFileName ⟨2025, 1, 1, 12, 0, 0⟩ =
      configFileName ++ "-" ++ strftimeCompact ⟨2025, 1, 1, 12, 0, 0⟩ :=
  ⟨by decide, by decide, by decide⟩

/-- C7: if `gitleaks` is absent from the search path, `check_commands`
returns both tools as not-installed with empty versions and its probe
trace stops after the first path lookup: the second tool is never
checked. -/
theorem first_tool_absent_short_circuit (env : ProbeEnv)
    (h : env.gitleaksOnPath = false) :
    check_commands env =
      (some ⟨⟨false, ""⟩, ⟨false, ""⟩⟩, [ProbeEvent.whichGitleaks]) := by
  simp [check_commands, h]

/-- Witness for C7 with the second tool present and healthy. -/
theorem first_tool_absent_short_circuit_witness :
    check_commands ⟨false, none, true, some "pre-commit 3.7.1"⟩ =
      (some ⟨⟨false, ""⟩, ⟨false, ""⟩⟩, [ProbeEvent.whichGitleaks]) :=
  first_tool_absent_short_circuit ⟨false, none, true, some "pre-commit 3.7.1"⟩ rfl

/-- C8: the program exits 0 when the simulation or the setup completes; it
exits 1, without attempting any configuration action (only prints), when
the environment check fails or when either tool is reported
not-installed. -/
theorem exit_code_policy (env : ProgramEnv) (dryRun : Bool) (fs : FS) :
    (check_in_repo env.repo = false →
      (mainRun env dryRun fs).1 = Outcome.exited 1 ∧
      (mainRun env dryRun fs).2.1 = fs ∧
      ∀ a ∈ (mainRun env dryRun fs).2.2, a.isPrint = true) ∧
    (∀ cs, check_in_repo env.repo = true → (check_commands env.probe).1 = some cs →
      (cs.gitleaks.status && cs.preCommit.status) = false →
      (mainRun env dryRun fs).1 = Outcome.exited 1 ∧
      (mainRun env dryRun fs).2.1 = fs ∧
      ∀ a ∈ (mainRun env dryRun fs).2.2, a.isPrint = true) ∧
    (∀ cs, check_in_repo env.repo = true → (check_commands env.probe).1 = some cs →
      (cs.gitleaks.status && cs.preCommit.status) = true →
      (dryRun = true ∨ env.clock.installOk = true) →
      (mainRun env dryRun fs).1 = Outcome.exited 0) := by
  refine ⟨?_, ?_, ?_⟩
  · intro h
    simp [mainRun, h, Action.isPrint]
  · intro cs h1 h2 h3
    simp [mainRun, h1, h2, h3, Action.isPrint]
  · intro cs h1 h2 h3 h4
    cases hd : dryRun with
    | true => simp [mainRun, h1, h2, h3, hd]
    | false =>
      rcases h4 with h4 | h4
      · rw [hd] at h4
        cases h4
      · have hs := config_secscan_returns_true cs.gitleaks.version cs.preCommit.version
          false env.clock fs (Or.inr h4)
        simp [mainRun, h1, h2, h3, hd, hs]

/-- Witness for C8: a run outside any repository exits 1. -/
theorem exit_code_policy_witness :
    (mainRun ⟨⟨"/r", none, fun s => s⟩, ⟨true, some "v1.0", true, some "pre-commit 2.0"⟩,
        ⟨⟨2025, 1, 1, 0, 0, 0⟩, ⟨2025, 1, 1, 0, 0, 0⟩, true⟩⟩ false []).1 =
      Outcome.exited 1 :=
  ((exit_code_policy ⟨⟨"/r", none, fun s => s⟩, ⟨true, some "v1.0", true, some "pre-commit 2.0"⟩,
      ⟨⟨2025, 1, 1, 0, 0, 0⟩, ⟨2025, 1, 1, 0, 0, 0⟩, true⟩⟩ false []).1 rfl).1

/-- C9: in real mode, if `pre-commit install` exits non-zero the call aborts
abnormally (the error propagates; exactly one install attempt, no retry,
and nothing — in particular no file mutation — happens after it), and the
configuration file is not left partially updated: in the write branches it
holds the complete fresh content, in the already-configured branch the
filesystem is untouched. -/
theorem install_failure_aborts_after_write (gv pcv : String) (env : ClockEnv) (fs : FS)
    (h : env.installOk = false) :
    (config_secscan gv pcv false env fs).2.2 = false ∧
    Action.runInstall ∈ (config_secscan gv pcv false env fs).2.1 ∧
    Action.runInstall ∉ afterFirstInstall (config_secscan gv pcv false env fs).2.1 ∧
    (afterFirstInstall (config_secscan gv pcv false env fs).2.1).all
      (fun a => !a.mutates) = true ∧
    (∀ c, fsLookup fs configFileName = some c → strContainsB c gitleaksMarker = true →
      (config_secscan gv pcv false env fs).1 = fs) ∧
    (∀ c, fsLookup fs configFileName = some c → strContainsB c gitleaksMarker = false →
      fsLookup (config_secscan gv pcv false env fs).1 configFileName =
        some (pre_commit_config gv)) ∧
    (fsLookup fs configFileName = none →
      fsLookup (config_secscan gv pcv false env fs).1 configFileName =
        some (pre_commit_config gv)) := by
  cases hc : fsLookup fs configFileName with
  | none =>
    simp [config_secscan, hc, h, afterFirstInstall, fsLookup_fsWrite_self]
  | some c =>
    cases hm : strContainsB c gitleaksMarker with
    | false =>
      simp [config_secscan, hc, hm, h, afterFirstInstall, fsLookup_fsWrite_self]
    | true =>
      simp [config_secscan, hc, hm, h, afterFirstInstall]

/-- Witness for C9: with no configuration file and a failing install, the
run aborts abnormally. -/
theorem install_failure_aborts_after_write_witness :
    (config_secscan "8.18.0" "3.7.1" false
        ⟨⟨2025, 1, 1, 0, 0, 0⟩, ⟨2025, 1, 1, 0, 0, 0⟩, false⟩ []).2.2 = false :=
  (install_failure_aborts_after_write "8.18.0" "3.7.1"
      ⟨⟨2025, 1, 1, 0, 0, 0⟩, ⟨2025, 1, 1, 0, 0, 0⟩, false⟩ [] rfl).1

/-- C10: when `gitleaks` is found and its version query succeeds but
`pre-commit` is absent from the search path, `check_commands` returns the
scanner as not-installed with an empty version — the already-detected
status and version are discarded, as the returned record shows. -/
theorem second_tool_absent_discards_first (env : ProbeEnv) (out t : String) (ts : List String)
    (h1 : env.gitleaksOnPath = true)
    (h2 : env.gitleaksVersionRun = some out)
    (h3 : pyTokens (pyStrip out) = t :: ts)
    (h4 : env.preCommitOnPath = false) :
    check_commands env =
      (some ⟨⟨false, ""⟩, ⟨false, ""⟩⟩,
       [ProbeEvent.whichGitleaks, ProbeEvent.runGitleaksVersion,
        ProbeEvent.whichPreCommit]) := by
  simp [check_commands, h1, h2, h3, h4]

/-- Witness for C10 at a healthy gitleaks installation. -/
theorem second_tool_absent_discards_first_witness :
    check_commands ⟨true, some "v8.18.0\n", false, none⟩ =
      (some ⟨⟨false, ""⟩, ⟨false, ""⟩⟩,
       [ProbeEvent.whichGitleaks, ProbeEvent.runGitleaksVersion,
        ProbeEvent.whichPreCommit]) :=
  second_tool_absent_discards_first ⟨true, some "v8.18.0\n", false, none⟩
    "v8.18.0\n" "v8.18.0" [] rfl rfl (by decide) rfl

end Secscan
